import Mathlib

/-
Verification development for the URC-COMMUNICATIONS camera relay
(src/CAM/roverUI.py).  The Python module is shallowly embedded:

* Python dictionaries keyed by camera-id strings become association
  lists (`List (String × α)`) with first-match lookup and
  update-in-place-or-append assignment, which is exactly the observable
  behaviour of `d[k]`, `d[k] = v` and `d.get(k)`.
* The encoded JPEG payload travels through the module as the base64
  text: `set_frame` stores `frame_base64.encode()` and the broadcaster
  sends `frame.decode('utf-8')`; since UTF-8 encode/decode are mutually
  inverse, the payload is modelled as the `String` itself.
* `datetime` values are opaque tags (`Nat` for stored timestamps,
  `String` for the ISO-8601 text placed in outbound JSON).
* The `async` control flow of `receive_camera_feed` is embedded as a
  step function over an explicit state (connection phase, retry
  counter, frame buffer) driven by a trace of environment events
  (outcome of each `websockets.connect`, outcome of each `recv`).
  Observable effects (connection attempts, `asyncio.sleep` waits,
  status writes, stored frames) are emitted as an action list.
-/

namespace RoverUI

/-! ## Python dictionaries as association lists -/

/-- Lookup in a Python dict: the value of the first entry whose key equals
`k`, or `none` when the key is missing (`d.get(k)` / a `KeyError` site). -/
def dictGet {α : Type} : List (String × α) → String → Option α
  | [], _ => none
  | (k', v) :: rest, k => if k' = k then some v else dictGet rest k

/-- Assignment `d[k] = v` on a Python dict: replace the value of an existing
key in place, or append a fresh entry when the key is missing. -/
def dictSet {α : Type} : List (String × α) → String → α → List (String × α)
  | [], k, v => [(k, v)]
  | (k', v') :: rest, k, v =>
    if k' = k then (k', v) :: rest else (k', v') :: dictSet rest k v

lemma dictGet_dictSet_self {α : Type} (d : List (String × α)) (k : String) (v : α) :
    dictGet (dictSet d k v) k = some v := by
  induction d with
  | nil => simp [dictSet, dictGet]
  | cons hd tl ih =>
    obtain ⟨k', v'⟩ := hd
    by_cases h : k' = k
    · simp [dictSet, dictGet, h]
    · simp [dictSet, dictGet, h, ih]

lemma dictGet_dictSet_ne {α : Type} {d : List (String × α)} {k k' : String} {v : α}
    (h : k ≠ k') : dictGet (dictSet d k v) k' = dictGet d k' := by
  induction d with
  | nil => simp [dictSet, dictGet, h]
  | cons hd tl ih =>
    obtain ⟨a, b⟩ := hd
    by_cases ha : a = k
    · subst ha
      simp [dictSet, dictGet, h]
    · simp [dictSet, dictGet, ha, ih]

/-! ## Configuration (CameraConfig dataclass and CAMERA_CONFIGS) -/

/-- Configuration record for one camera, from the `CameraConfig` dataclass. -/
structure CameraConfig where
  name : String
  source_url : String
  source_port : Nat
  broadcast_port : Nat
  camera_id : String
deriving DecidableEq, Repr

/-- The seven configured cameras (module-level `CAMERA_CONFIGS`). -/
def CAMERA_CONFIGS : List CameraConfig :=
  [⟨"Front View", "ws://192.168.0.5", 8765, 9001, "front_view"⟩,
   ⟨"Rear View", "ws://192.168.0.5", 8766, 9002, "rear_view"⟩,
   ⟨"Top View", "ws://192.168.0.5", 8767, 9003, "top_view"⟩,
   ⟨"Arm Camera", "ws://192.168.0.5", 8768, 9004, "arm_camera"⟩,
   ⟨"ZED RGB", "ws://192.168.0.5", 8769, 9005, "zed_rgb"⟩,
   ⟨"ZED Depth", "ws://192.168.0.5", 8770, 9006, "zed_depth"⟩,
   ⟨"Extra Camera", "ws://192.168.0.5", 8771, 9007, "extra_camera"⟩]

lemma dictGet_constMap {α : Type} (v : α) (l : List CameraConfig) (k : String) :
    dictGet (l.map fun cfg => (cfg.camera_id, v)) k = none ∨
      dictGet (l.map fun cfg => (cfg.camera_id, v)) k = some v := by
  induction l with
  | nil => exact Or.inl rfl
  | cons hd tl ih =>
    by_cases h : hd.camera_id = k
    · exact Or.inr (by simp [dictGet, h])
    · simpa [dictGet, h] using ih

lemma dictGet_constMap_mem {α : Type} (v : α) (l : List CameraConfig) (cfg : CameraConfig)
    (hm : cfg ∈ l) : dictGet (l.map fun c => (c.camera_id, v)) cfg.camera_id = some v := by
  induction l with
  | nil => cases hm
  | cons hd tl ih =>
    by_cases h : hd.camera_id = cfg.camera_id
    · simp [dictGet, h]
    · rcases List.mem_cons.mp hm with rfl | hmem
      · exact absurd rfl h
      · simp [dictGet, h, ih hmem]

/-! ## Frame buffer (class CameraFrameBuffer) -/

/-- Exception raised by a failed Python dict read (`d[k]` with `k` absent). -/
inductive PyError where
  | keyError
deriving DecidableEq, Repr

/-- State of the `CameraFrameBuffer` instance: four dictionaries keyed by
camera id.  `frames` holds `None` or the stored payload, mirroring
`Dict[str, Optional[bytes]]`; `timestamps` holds `None` or the store time. -/
structure CameraFrameBuffer where
  frames : List (String × Option String)
  timestamps : List (String × Option Nat)
  frame_counts : List (String × Nat)
  connection_status : List (String × Bool)
deriving DecidableEq, Repr

/-- The module-level `frame_buffer = CameraFrameBuffer()`: every configured
camera id maps to no frame, no timestamp, count 0, disconnected. -/
def frame_buffer : CameraFrameBuffer :=
  ⟨CAMERA_CONFIGS.map fun cfg => (cfg.camera_id, (none : Option String)),
   CAMERA_CONFIGS.map fun cfg => (cfg.camera_id, (none : Option Nat)),
   CAMERA_CONFIGS.map fun cfg => (cfg.camera_id, (0 : Nat)),
   CAMERA_CONFIGS.map fun cfg => (cfg.camera_id, false)⟩

/-- Method `set_frame`: assigns `frames[camera_id]` and
`timestamps[camera_id]`, then executes `frame_counts[camera_id] += 1`.
The `+=` first reads `frame_counts[camera_id]`; when the key is missing
that read raises `KeyError` — after the first two assignments have already
mutated the dictionaries.  The result pairs the mutated buffer with the
raised exception, if any. -/
def set_frame (buf : CameraFrameBuffer) (camera_id : String) (frame_base64 : String)
    (timestamp : Nat) : CameraFrameBuffer × Option PyError :=
  let frames' := dictSet buf.frames camera_id (some frame_base64)
  let timestamps' := dictSet buf.timestamps camera_id (some timestamp)
  match dictGet buf.frame_counts camera_id with
  | some n =>
    (⟨frames', timestamps', dictSet buf.frame_counts camera_id (n + 1),
      buf.connection_status⟩, none)
  | none =>
    (⟨frames', timestamps', buf.frame_counts, buf.connection_status⟩, some PyError.keyError)

/-- Method `get_frame`: `self.frames.get(camera_id)` — `None` when the key
is missing, otherwise the stored `Optional` value (which may itself be
`None` before the first frame). -/
def get_frame (buf : CameraFrameBuffer) (camera_id : String) : Option String :=
  match dictGet buf.frames camera_id with
  | some v => v
  | none => none

/-- Method `set_connection_status`: `self.connection_status[camera_id] = connected`. -/
def set_connection_status (buf : CameraFrameBuffer) (camera_id : String)
    (connected : Bool) : CameraFrameBuffer :=
  ⟨buf.frames, buf.timestamps, buf.frame_counts,
   dictSet buf.connection_status camera_id connected⟩

lemma get_frame_set_frame (buf : CameraFrameBuffer) (camera_id p : String) (t : Nat) :
    get_frame (set_frame buf camera_id p t).1 camera_id = some p := by
  unfold get_frame set_frame
  cases h : dictGet buf.frame_counts camera_id <;>
    simp [dictGet_dictSet_self]

lemma get_frame_init (camera_id : String) : get_frame frame_buffer camera_id = none := by
  unfold get_frame frame_buffer
  rcases dictGet_constMap (none : Option String) CAMERA_CONFIGS camera_id with h | h <;>
    simp [h]

/-! ## Ingest connector (receive_camera_feed) -/

/-- Control position of one `receive_camera_feed` task: `connecting` is the
top of the outer `while True` (about to call `websockets.connect`),
`streaming` is the inner receive loop, `failed` is after the
"Max retries exceeded" `break` has ended the function. -/
inductive ConnState where
  | connecting
  | streaming
  | failed
deriving DecidableEq, Repr

/-- Outcome of one `websockets.connect` call, as classified by the handlers
of the outer `try`: success, `ConnectionClosed`/`ConnectionRefusedError`,
or any other exception. -/
inductive ConnEvent where
  | ok
  | refusedOrClosed
  | otherError
deriving DecidableEq, Repr

/-- Classification of one inbound message by the processing code in the
inner loop.  `badBase64` is a message that `json.loads` parses but whose
`message['image']` subscript-or-`b64decode` raises an exception other than
`JSONDecodeError`/`KeyError` (a non-object envelope raising `TypeError`, or
an image field with invalid base64 padding raising `binascii.Error`);
`frameOk` carries the re-encoded base64 payload and the wall-clock time of
the `set_frame` call. -/
inductive MsgEvent where
  | parseFail
  | missingImage
  | badBase64
  | decodeFail
  | reencodeFail
  | procError
  | frameOk (payload : String) (now : Nat)
deriving DecidableEq, Repr

/-- Outcome of one `asyncio.wait_for(websocket.recv(), timeout=30)` call:
a message, `asyncio.TimeoutError`, or any other exception (in particular a
`ConnectionClosed` raised when the source closes mid-stream). -/
inductive RecvEvent where
  | msg (m : MsgEvent)
  | timeout
  | recvError
deriving DecidableEq, Repr

/-- One environment event consumed by the connector: the outcome of a
connect call (consumed in `connecting`) or of a receive call (consumed in
`streaming`). -/
inductive Event where
  | conn (e : ConnEvent)
  | recv (e : RecvEvent)
deriving DecidableEq, Repr

/-- Observable side effect emitted by the connector: a `websockets.connect`
call, an `asyncio.sleep` of the given duration, a `set_connection_status`
write, or a counted `set_frame` store. -/
inductive Action where
  | attempt
  | setConnected (b : Bool)
  | sleep (n : Nat)
  | storeFrame (payload : String)
deriving DecidableEq, Repr

/-- Full state of one connector task: control position, the local
`retry_count`, and the shared frame buffer. -/
structure IngestState where
  conn : ConnState
  retry_count : Nat
  buf : CameraFrameBuffer
deriving DecidableEq, Repr

/-- One step of `receive_camera_feed(config, max_retries)` for the camera
`cid`, consuming one environment event.  Mirrors the source exactly:
a successful connect marks connected and resets `retry_count`; a
`ConnectionClosed`/`ConnectionRefusedError` from the connect call marks
disconnected, increments `retry_count`, breaks out (terminal) when
`retry_count > max_retries` and otherwise sleeps `min(2 ** retry_count, 30)`;
any other connect error marks disconnected and sleeps 5 without touching
`retry_count`.  Inside `streaming`, a timeout or any receive error breaks
back to the reconnect loop (no status write, no sleep); malformed/undecodable
messages are discarded by `continue`, except that `badBase64` escapes the
narrow `(json.JSONDecodeError, KeyError)` handler and is caught by the
generic receive handler, which breaks; a fully processed frame is stored
via `set_frame`.  An event of the kind the current position does not wait
for is ignored. -/
def receiveStep (max_retries : Nat) (cid : String) (st : IngestState) (e : Event) :
    IngestState × List Action :=
  match st with
  | ⟨ConnState.failed, rc, buf⟩ => (⟨ConnState.failed, rc, buf⟩, [])
  | ⟨ConnState.connecting, rc, buf⟩ =>
    match e with
    | Event.recv _ => (⟨ConnState.connecting, rc, buf⟩, [])
    | Event.conn ce =>
      match ce with
      | ConnEvent.ok =>
        (⟨ConnState.streaming, 0, set_connection_status buf cid true⟩,
         [Action.attempt, Action.setConnected true])
      | ConnEvent.refusedOrClosed =>
        let buf' := set_connection_status buf cid false
        if rc + 1 > max_retries then
          (⟨ConnState.failed, rc + 1, buf'⟩, [Action.attempt, Action.setConnected false])
        else
          (⟨ConnState.connecting, rc + 1, buf'⟩,
           [Action.attempt, Action.setConnected false,
            Action.sleep (min (2 ^ (rc + 1)) 30)])
      | ConnEvent.otherError =>
        (⟨ConnState.connecting, rc, set_connection_status buf cid false⟩,
         [Action.attempt, Action.setConnected false, Action.sleep 5])
  | ⟨ConnState.streaming, rc, buf⟩ =>
    match e with
    | Event.conn _ => (⟨ConnState.streaming, rc, buf⟩, [])
    | Event.recv re =>
      match re with
      | RecvEvent.timeout => (⟨ConnState.connecting, rc, buf⟩, [])
      | RecvEvent.recvError => (⟨ConnState.connecting, rc, buf⟩, [])
      | RecvEvent.msg m =>
        match m with
        | MsgEvent.parseFail => (⟨ConnState.streaming, rc, buf⟩, [])
        | MsgEvent.missingImage => (⟨ConnState.streaming, rc, buf⟩, [])
        | MsgEvent.badBase64 => (⟨ConnState.connecting, rc, buf⟩, [])
        | MsgEvent.decodeFail => (⟨ConnState.streaming, rc, buf⟩, [])
        | MsgEvent.reencodeFail => (⟨ConnState.streaming, rc, buf⟩, [])
        | MsgEvent.procError => (⟨ConnState.streaming, rc, buf⟩, [])
        | MsgEvent.frameOk p t =>
          let r := set_frame buf cid p t
          (⟨ConnState.streaming, rc, r.1⟩,
           if r.2 = (none : Option PyError) then [Action.storeFrame p] else [])

/-- Run the connector over a trace of environment events, collecting the
emitted actions. -/
def runFrom (max_retries : Nat) (cid : String) :
    IngestState → List Event → IngestState × List Action
  | st, [] => (st, [])
  | st, e :: es =>
    ((runFrom max_retries cid (receiveStep max_retries cid st e).1 es).1,
     (receiveStep max_retries cid st e).2 ++
       (runFrom max_retries cid (receiveStep max_retries cid st e).1 es).2)

/-- Initial state of a connector task as started by `main()`: about to make
the first connection attempt, `retry_count = 0`, over the fresh module-level
`frame_buffer`. -/
def ingestInit : IngestState := ⟨ConnState.connecting, 0, frame_buffer⟩

/-- Number of counted `set_frame` stores in an action trace. -/
def storeCount : List Action → Nat
  | [] => 0
  | Action.storeFrame _ :: rest => storeCount rest + 1
  | _ :: rest => storeCount rest

/-- Durations of the `asyncio.sleep` calls in an action trace, in order. -/
def sleepsOf : List Action → List Nat
  | [] => []
  | Action.sleep w :: rest => w :: sleepsOf rest
  | _ :: rest => sleepsOf rest

/-- Number of `websockets.connect` calls in an action trace. -/
def attemptCount : List Action → Nat
  | [] => 0
  | Action.attempt :: rest => attemptCount rest + 1
  | _ :: rest => attemptCount rest

lemma storeCount_append (l1 l2 : List Action) :
    storeCount (l1 ++ l2) = storeCount l1 + storeCount l2 := by
  induction l1 with
  | nil => simp [storeCount]
  | cons a rest ih =>
    cases a <;> simp [storeCount, ih]
    omega

lemma step_count (cid : String) (st : IngestState) (e : Event) (n : Nat)
    (h : dictGet st.buf.frame_counts cid = some n) :
    dictGet (receiveStep 5 cid st e).1.buf.frame_counts cid =
      some (n + storeCount (receiveStep 5 cid st e).2) := by
  obtain ⟨conn, rc, buf⟩ := st
  cases conn with
  | failed => simpa [receiveStep, storeCount] using h
  | connecting =>
    cases e with
    | recv re => simpa [receiveStep, storeCount] using h
    | conn ce =>
      cases ce with
      | ok => simpa [receiveStep, set_connection_status, storeCount] using h
      | refusedOrClosed =>
        by_cases h5 : rc + 1 > 5 <;>
          simpa [receiveStep, set_connection_status, storeCount, h5] using h
      | otherError => simpa [receiveStep, set_connection_status, storeCount] using h
  | streaming =>
    cases e with
    | conn ce => simpa [receiveStep, storeCount] using h
    | recv re =>
      cases re with
      | timeout => simpa [receiveStep, storeCount] using h
      | recvError => simpa [receiveStep, storeCount] using h
      | msg m =>
        cases m with
        | frameOk p t =>
          simp only [receiveStep, set_frame] at h ⊢
          simp [h, storeCount, dictGet_dictSet_self]
        | parseFail => simpa [receiveStep, storeCount] using h
        | missingImage => simpa [receiveStep, storeCount] using h
        | badBase64 => simpa [receiveStep, storeCount] using h
        | decodeFail => simpa [receiveStep, storeCount] using h
        | reencodeFail => simpa [receiveStep, storeCount] using h
        | procError => simpa [receiveStep, storeCount] using h

lemma run_count (cid : String) :
    ∀ (es : List Event) (st : IngestState) (n : Nat),
      dictGet st.buf.frame_counts cid = some n →
      dictGet (runFrom 5 cid st es).1.buf.frame_counts cid =
        some (n + storeCount (runFrom 5 cid st es).2) := by
  intro es
  induction es with
  | nil =>
    intro st n h
    simpa [runFrom, storeCount] using h
  | cons e es ih =>
    intro st n h
    have hstep := step_count cid st e n h
    have htail := ih (receiveStep 5 cid st e).1 (n + storeCount (receiveStep 5 cid st e).2)
      hstep
    simp only [runFrom, storeCount_append]
    rw [htail]
    ring_nf

lemma runFrom_failed (max_retries : Nat) (cid : String) :
    ∀ (es : List Event) (st : IngestState), st.conn = ConnState.failed →
      runFrom max_retries cid st es = (st, []) := by
  intro es
  induction es with
  | nil => intro st h; rfl
  | cons e es ih =>
    intro st h
    obtain ⟨conn, rc, buf⟩ := st
    cases h
    simp [runFrom, receiveStep, ih ⟨ConnState.failed, rc, buf⟩ rfl]

/-! ## Broadcast server (broadcast_camera_feed) -/

/-- Value of one field of an outbound JSON object: a string, a boolean, or
JSON null. -/
inductive JsonVal where
  | s (v : String)
  | b (v : Bool)
  | null
deriving DecidableEq, Repr

/-- Python truthiness of the `Optional[bytes]` returned by `get_frame`:
`if frame:` is taken exactly when a frame is present and non-empty. -/
def pyTruthy : Option String → Bool
  | none => false
  | some v => !v.isEmpty

/-- Placeholder object sent while no frame is available, from the `else`
branch of `broadcast_camera_feed` — the dict literal in source order. -/
def waiting_response (config : CameraConfig) (now : String) (status : Bool) :
    List (String × JsonVal) :=
  [("camera_id", JsonVal.s config.camera_id),
   ("camera_name", JsonVal.s config.name),
   ("timestamp", JsonVal.s now),
   ("image", JsonVal.null),
   ("is_grayscale", JsonVal.b false),
   ("source_connected", JsonVal.b status),
   ("message", JsonVal.s "Waiting for first frame...")]

/-- Body of one tick of `broadcast_camera_feed` for one viewer: read the
camera's latest frame and `connection_status.get(camera_id, False)`; when
the frame is truthy send the frame object (the stored bytes decoded back to
the base64 string), otherwise send the placeholder.  `now` stands for
`datetime.now().isoformat()` at this tick. -/
def broadcast_response (config : CameraConfig) (buf : CameraFrameBuffer) (now : String) :
    List (String × JsonVal) :=
  let status := (dictGet buf.connection_status config.camera_id).getD false
  match get_frame buf config.camera_id with
  | some v =>
    if v.isEmpty then waiting_response config now status
    else
      [("camera_id", JsonVal.s config.camera_id),
       ("camera_name", JsonVal.s config.name),
       ("timestamp", JsonVal.s now),
       ("image", JsonVal.s v),
       ("is_grayscale", JsonVal.b false),
       ("source_connected", JsonVal.b status)]
  | none => waiting_response config now status

/-! ## Claims about the ingest connector -/

/-- Claim C1, counterexample: after a successful connect followed by a
read-deadline expiry, the connector has left `streaming`, yet
`connection_status` for the camera is still `true`, and the subsequent
reconnect attempt is issued without any `set_connection_status(.., False)`
ever being emitted — the timeout path `break`s straight back to
`websockets.connect`. -/
theorem c1_counterexample :
    (runFrom 5 "front_view" ingestInit
      [Event.conn ConnEvent.ok, Event.recv RecvEvent.timeout]).1.conn =
        ConnState.connecting ∧
    dictGet (runFrom 5 "front_view" ingestInit
      [Event.conn ConnEvent.ok, Event.recv RecvEvent.timeout]).1.buf.connection_status
      "front_view" = some true ∧
    (runFrom 5 "front_view" ingestInit
      [Event.conn ConnEvent.ok, Event.recv RecvEvent.timeout, Event.conn ConnEvent.ok]).2 =
      [Action.attempt, Action.setConnected true, Action.attempt, Action.setConnected true] := by
  decide

/-- Claim C1, amended: `ConnectionStatus` is cleared only by a failed
connect call — `ConnectionClosed`/`ConnectionRefusedError` or an unexpected
error raised by `websockets.connect` marks the camera disconnected before
the next attempt — whereas a read-deadline expiry or a receive error during
`streaming` exits the read loop with the status, retry counter and buffer
untouched and proceeds directly to a new connection attempt. -/
theorem c1_amended (cid : String) (rc : Nat) (buf : CameraFrameBuffer) :
    receiveStep 5 cid ⟨ConnState.streaming, rc, buf⟩ (Event.recv RecvEvent.timeout) =
      (⟨ConnState.connecting, rc, buf⟩, []) ∧
    receiveStep 5 cid ⟨ConnState.streaming, rc, buf⟩ (Event.recv RecvEvent.recvError) =
      (⟨ConnState.connecting, rc, buf⟩, []) ∧
    receiveStep 5 cid ⟨ConnState.connecting, rc, buf⟩ (Event.conn ConnEvent.ok) =
      (⟨ConnState.streaming, 0, set_connection_status buf cid true⟩,
       [Action.attempt, Action.setConnected true]) ∧
    dictGet (receiveStep 5 cid ⟨ConnState.connecting, rc, buf⟩
      (Event.conn ConnEvent.refusedOrClosed)).1.buf.connection_status cid = some false ∧
    Action.setConnected false ∈
      (receiveStep 5 cid ⟨ConnState.connecting, rc, buf⟩
        (Event.conn ConnEvent.refusedOrClosed)).2 ∧
    dictGet (receiveStep 5 cid ⟨ConnState.connecting, rc, buf⟩
      (Event.conn ConnEvent.otherError)).1.buf.connection_status cid = some false := by
  refine ⟨rfl, rfl, rfl, ?_, ?_, ?_⟩
  · by_cases h5 : rc + 1 > 5 <;>
      simp [receiveStep, set_connection_status, h5, dictGet_dictSet_self]
  · by_cases h5 : rc + 1 > 5 <;> simp [receiveStep, h5]
  · simp [receiveStep, set_connection_status, dictGet_dictSet_self]

/-- Witness for the amended claim C1 at the Front View camera over the
fresh buffer. -/
theorem c1_amended_witness :
    receiveStep 5 "front_view" ⟨ConnState.streaming, 0, frame_buffer⟩
      (Event.recv RecvEvent.timeout) =
      (⟨ConnState.connecting, 0, frame_buffer⟩, []) ∧
    dictGet (receiveStep 5 "front_view" ⟨ConnState.connecting, 0, frame_buffer⟩
      (Event.conn ConnEvent.refusedOrClosed)).1.buf.connection_status "front_view" =
      some false :=
  ⟨(c1_amended "front_view" 0 frame_buffer).1,
   (c1_amended "front_view" 0 frame_buffer).2.2.2.1⟩

/-- Claim C2, counterexample: after 5 consecutive failed connection
attempts the connector is still in the retry loop (not `failed`), and a
6th `websockets.connect` call is issued — `retry_count > max_retries` first
holds after the 6th failure. -/
theorem c2_counterexample :
    (runFrom 5 "front_view" ingestInit
      (List.replicate 5 (Event.conn ConnEvent.refusedOrClosed))).1.conn =
        ConnState.connecting ∧
    (runFrom 5 "front_view" ingestInit
      (List.replicate 5 (Event.conn ConnEvent.refusedOrClosed))).1.conn ≠
        ConnState.failed ∧
    attemptCount (runFrom 5 "front_view" ingestInit
      (List.replicate 5 (Event.conn ConnEvent.refusedOrClosed) ++
        [Event.conn ConnEvent.ok])).2 = 6 := by
  decide

/-- Claim C2, amended: the waits between consecutive failed connection
attempts are `min(2 ** retry_count, 30)`, i.e. exactly 2, 4, 8, 16, 30 time
units for the 1st through 5th consecutive failures; after the 6th
consecutive failed attempt (the initial attempt plus `max_retries = 5`
retries) the connector becomes terminal and issues no further connection
attempts, sleeps or writes for the remainder of the process lifetime. -/
theorem c2_amended :
    sleepsOf (runFrom 5 "front_view" ingestInit
      (List.replicate 6 (Event.conn ConnEvent.refusedOrClosed))).2 = [2, 4, 8, 16, 30] ∧
    (runFrom 5 "front_view" ingestInit
      (List.replicate 6 (Event.conn ConnEvent.refusedOrClosed))).1.conn =
        ConnState.failed ∧
    attemptCount (runFrom 5 "front_view" ingestInit
      (List.replicate 6 (Event.conn ConnEvent.refusedOrClosed))).2 = 6 ∧
    ∀ es : List Event,
      runFrom 5 "front_view"
        (runFrom 5 "front_view" ingestInit
          (List.replicate 6 (Event.conn ConnEvent.refusedOrClosed))).1 es =
      ((runFrom 5 "front_view" ingestInit
          (List.replicate 6 (Event.conn ConnEvent.refusedOrClosed))).1, []) :=
  ⟨by decide, by decide, by decide,
   fun es => runFrom_failed 5 "front_view" es _ (by decide)⟩

/-- Witness for the amended claim C2: the terminal connector consumes a
concrete further event without emitting any action. -/
theorem c2_amended_witness :
    runFrom 5 "front_view"
      (runFrom 5 "front_view" ingestInit
        (List.replicate 6 (Event.conn ConnEvent.refusedOrClosed))).1
      [Event.conn ConnEvent.ok] =
    ((runFrom 5 "front_view" ingestInit
        (List.replicate 6 (Event.conn ConnEvent.refusedOrClosed))).1, []) :=
  c2_amended.2.2.2 [Event.conn ConnEvent.ok]

/-- Event trace for the C3 scenario: connect succeeds, three valid frames
arrive and are decoded, re-encoded and stored, then the source closes the
connection — the resulting `ConnectionClosed` from `recv` is caught by the
generic `except Exception` of the inner loop. -/
def c3Trace : List Event :=
  [Event.conn ConnEvent.ok,
   Event.recv (RecvEvent.msg (MsgEvent.frameOk "frameA" 1)),
   Event.recv (RecvEvent.msg (MsgEvent.frameOk "frameB" 2)),
   Event.recv (RecvEvent.msg (MsgEvent.frameOk "frameC" 3)),
   Event.recv RecvEvent.recvError]

/-- Claim C3, counterexample: after three valid frames and a source-side
close, the frame counter is 3 as claimed, but `connection_status` is still
`true` (not `false`) and the next connection attempt is issued immediately
with no sleep at all (not after 2 time units): the full action trace of the
scenario plus the immediate reconnect contains no `setConnected false` and
no `sleep`. -/
theorem c3_counterexample :
    dictGet (runFrom 5 "front_view" ingestInit c3Trace).1.buf.frame_counts
      "front_view" = some 3 ∧
    (runFrom 5 "front_view" ingestInit c3Trace).1.conn = ConnState.connecting ∧
    dictGet (runFrom 5 "front_view" ingestInit c3Trace).1.buf.connection_status
      "front_view" = some true ∧
    (runFrom 5 "front_view" ingestInit (c3Trace ++ [Event.conn ConnEvent.ok])).2 =
      [Action.attempt, Action.setConnected true, Action.storeFrame "frameA",
       Action.storeFrame "frameB", Action.storeFrame "frameC",
       Action.attempt, Action.setConnected true] := by
  decide

/-- Claim C3, amended: after camera A sends 3 valid frames and closes the
connection, the frame counter ends at 3; the close exits the read loop
without changing `ConnectionStatus` and a reconnect is attempted
immediately; only when that immediate attempt itself fails with a
closed/refused error is `ConnectionStatus` set to `false` and the following
attempt scheduled 2 time units later. -/
theorem c3_amended :
    dictGet (runFrom 5 "front_view" ingestInit
      (c3Trace ++ [Event.conn ConnEvent.refusedOrClosed])).1.buf.frame_counts
      "front_view" = some 3 ∧
    dictGet (runFrom 5 "front_view" ingestInit
      (c3Trace ++ [Event.conn ConnEvent.refusedOrClosed])).1.buf.connection_status
      "front_view" = some false ∧
    (runFrom 5 "front_view" ingestInit
      (c3Trace ++ [Event.conn ConnEvent.refusedOrClosed])).2 =
      [Action.attempt, Action.setConnected true, Action.storeFrame "frameA",
       Action.storeFrame "frameB", Action.storeFrame "frameC",
       Action.attempt, Action.setConnected false, Action.sleep 2] := by
  decide

/-- Claim C4, counterexample: a structurally valid JSON message whose image
field fails base64 decoding (for instance a payload with invalid base64
padding, raising `binascii.Error`, or a non-object envelope raising
`TypeError` on the subscript) escapes the `(json.JSONDecodeError, KeyError)`
handler, is caught by the generic receive handler and `break`s the read
loop: the connector does not stay in `streaming`, and the upstream
connection is abandoned.  The frame counter is indeed not advanced. -/
theorem c4_counterexample :
    (runFrom 5 "front_view" ingestInit
      [Event.conn ConnEvent.ok, Event.recv (RecvEvent.msg MsgEvent.badBase64)]).1.conn =
        ConnState.connecting ∧
    (runFrom 5 "front_view" ingestInit
      [Event.conn ConnEvent.ok, Event.recv (RecvEvent.msg MsgEvent.badBase64)]).1.conn ≠
        ConnState.streaming ∧
    dictGet (runFrom 5 "front_view" ingestInit
      [Event.conn ConnEvent.ok,
       Event.recv (RecvEvent.msg MsgEvent.badBase64)]).1.buf.frame_counts
      "front_view" = some 0 := by
  decide

/-- Claim C4, amended: an unparseable JSON message, a JSON object missing
the image field, a payload whose image fails `cv2.imdecode`, a failing
re-encode, and any other error inside the frame-processing block are all
discarded without leaving `streaming`, without touching the buffer and
without advancing the frame counter; but a message whose image field fails
base64 decoding (or a non-object JSON envelope) raises outside the narrow
parse handler and breaks the read loop, closing the upstream connection
(the frame counter still not advanced). -/
theorem c4_amended (cid : String) (rc : Nat) (buf : CameraFrameBuffer) :
    receiveStep 5 cid ⟨ConnState.streaming, rc, buf⟩
      (Event.recv (RecvEvent.msg MsgEvent.parseFail)) =
      (⟨ConnState.streaming, rc, buf⟩, []) ∧
    receiveStep 5 cid ⟨ConnState.streaming, rc, buf⟩
      (Event.recv (RecvEvent.msg MsgEvent.missingImage)) =
      (⟨ConnState.streaming, rc, buf⟩, []) ∧
    receiveStep 5 cid ⟨ConnState.streaming, rc, buf⟩
      (Event.recv (RecvEvent.msg MsgEvent.decodeFail)) =
      (⟨ConnState.streaming, rc, buf⟩, []) ∧
    receiveStep 5 cid ⟨ConnState.streaming, rc, buf⟩
      (Event.recv (RecvEvent.msg MsgEvent.reencodeFail)) =
      (⟨ConnState.streaming, rc, buf⟩, []) ∧
    receiveStep 5 cid ⟨ConnState.streaming, rc, buf⟩
      (Event.recv (RecvEvent.msg MsgEvent.procError)) =
      (⟨ConnState.streaming, rc, buf⟩, []) ∧
    receiveStep 5 cid ⟨ConnState.streaming, rc, buf⟩
      (Event.recv (RecvEvent.msg MsgEvent.badBase64)) =
      (⟨ConnState.connecting, rc, buf⟩, []) :=
  ⟨rfl, rfl, rfl, rfl, rfl, rfl⟩

/-- Witness for the amended claim C4 at the Front View camera over the
fresh buffer: one discarded message kind and the breaking one. -/
theorem c4_amended_witness :
    receiveStep 5 "front_view" ⟨ConnState.streaming, 0, frame_buffer⟩
      (Event.recv (RecvEvent.msg MsgEvent.parseFail)) =
      (⟨ConnState.streaming, 0, frame_buffer⟩, []) ∧
    receiveStep 5 "front_view" ⟨ConnState.streaming, 0, frame_buffer⟩
      (Event.recv (RecvEvent.msg MsgEvent.badBase64)) =
      (⟨ConnState.connecting, 0, frame_buffer⟩, []) :=
  ⟨(c4_amended "front_view" 0 frame_buffer).1,
   (c4_amended "front_view" 0 frame_buffer).2.2.2.2.2⟩

/-! ## Claims about the frame store -/

/-- Claim C5: for every camera, each `set_frame` call on a camera whose
counter exists increments that camera's frame counter by exactly 1 (so the
counter is strictly increasing over accepted frames), and for every
configured camera and every event trace of its connector starting at
process start, the counter equals the number of frames successfully
decoded, re-encoded and stored for that camera. -/
theorem c5_frame_counter :
    (∀ (buf : CameraFrameBuffer) (camera_id p : String) (t n : Nat),
        dictGet buf.frame_counts camera_id = some n →
        dictGet (set_frame buf camera_id p t).1.frame_counts camera_id = some (n + 1)) ∧
    (∀ cfg : CameraConfig, cfg ∈ CAMERA_CONFIGS → ∀ es : List Event,
        dictGet (runFrom 5 cfg.camera_id ingestInit es).1.buf.frame_counts cfg.camera_id =
          some (storeCount (runFrom 5 cfg.camera_id ingestInit es).2)) := by
  constructor
  · intro buf camera_id p t n h
    simp [set_frame, h, dictGet_dictSet_self]
  · intro cfg hm es
    have h0 : dictGet ingestInit.buf.frame_counts cfg.camera_id = some 0 := by
      simpa [ingestInit, frame_buffer] using
        dictGet_constMap_mem (0 : Nat) CAMERA_CONFIGS cfg hm
    simpa using run_count cfg.camera_id es ingestInit 0 h0

/-- Event trace used to instantiate claim C5 at a concrete input. -/
def c5Trace : List Event :=
  [Event.conn ConnEvent.ok,
   Event.recv (RecvEvent.msg (MsgEvent.frameOk "frameA" 1)),
   Event.recv (RecvEvent.msg MsgEvent.decodeFail),
   Event.recv (RecvEvent.msg (MsgEvent.frameOk "frameB" 2))]

/-- Witness for claim C5 at the Front View camera: one `set_frame` on the
fresh buffer yields count 1, and the counter after a concrete trace with
two stored frames (and one discarded frame) equals the store count, which
is 2. -/
theorem c5_frame_counter_witness :
    dictGet (set_frame frame_buffer "front_view" "frameA" 7).1.frame_counts
      "front_view" = some (0 + 1) ∧
    dictGet (runFrom 5 "front_view" ingestInit c5Trace).1.buf.frame_counts
      "front_view" =
      some (storeCount (runFrom 5 "front_view" ingestInit c5Trace).2) ∧
    storeCount (runFrom 5 "front_view" ingestInit c5Trace).2 = 2 :=
  ⟨c5_frame_counter.1 frame_buffer "front_view" "frameA" 7 0 (by decide),
   c5_frame_counter.2 ⟨"Front View", "ws://192.168.0.5", 8765, 9001, "front_view"⟩
     (by decide) c5Trace,
   by decide⟩

/-- Claim C6: `get_frame` returns the absent marker for every camera id
before any `set_frame` call; after a `set_frame` it returns exactly the
payload of that call; and two successive `set_frame` calls for the same
camera leave the second payload (latest-wins). -/
theorem c6_latest_wins :
    (∀ camera_id : String, get_frame frame_buffer camera_id = none) ∧
    (∀ (buf : CameraFrameBuffer) (camera_id p : String) (t : Nat),
        get_frame (set_frame buf camera_id p t).1 camera_id = some p) ∧
    (∀ (buf : CameraFrameBuffer) (camera_id p1 p2 : String) (t1 t2 : Nat),
        get_frame
          (set_frame (set_frame buf camera_id p1 t1).1 camera_id p2 t2).1
          camera_id = some p2) :=
  ⟨get_frame_init,
   fun buf camera_id p t => get_frame_set_frame buf camera_id p t,
   fun buf camera_id p1 p2 t1 t2 =>
     get_frame_set_frame (set_frame buf camera_id p1 t1).1 camera_id p2 t2⟩

/-- Witness for claim C6 at the Front View camera with two successive
stores. -/
theorem c6_latest_wins_witness :
    get_frame frame_buffer "front_view" = none ∧
    get_frame (set_frame frame_buffer "front_view" "frameA" 1).1 "front_view" =
      some "frameA" ∧
    get_frame (set_frame (set_frame frame_buffer "front_view" "frameA" 1).1
      "front_view" "frameB" 2).1 "front_view" = some "frameB" :=
  ⟨c6_latest_wins.1 "front_view",
   c6_latest_wins.2.1 frame_buffer "front_view" "frameA" 1,
   c6_latest_wins.2.2 frame_buffer "front_view" "frameA" "frameB" 1 2⟩

/-! ## Claims about the broadcast server -/

/-- Configuration entry of the Front View camera, as listed in
`CAMERA_CONFIGS`. -/
def frontViewConfig : CameraConfig :=
  ⟨"Front View", "ws://192.168.0.5", 8765, 9001, "front_view"⟩

/-- Claim C7, counterexample: `set_frame` accepts the empty string, storing
the empty payload; the broadcast tick then evaluates `if frame:` on empty
bytes, which is falsy, and sends the placeholder with `image: null` and the
waiting message instead of a message carrying the stored frame's image. -/
theorem c7_counterexample :
    frontViewConfig ∈ CAMERA_CONFIGS ∧
    dictGet (set_frame frame_buffer "front_view" "" 0).1.frames "front_view" =
      some (some "") ∧
    dictGet (broadcast_response frontViewConfig
      (set_frame frame_buffer "front_view" "" 0).1 "2026-01-01T00:00:00") "image" =
      some JsonVal.null ∧
    dictGet (broadcast_response frontViewConfig
      (set_frame frame_buffer "front_view" "" 0).1 "2026-01-01T00:00:00") "message" =
      some (JsonVal.s "Waiting for first frame...") := by
  decide

/-- Claim C7, amended: a viewer connected before any frame receives the
placeholder with `image: null` and the waiting message on a tick over the
fresh buffer; on the first tick after a non-empty frame is stored the
message carries exactly that frame's image; a stored empty payload is falsy
under `if frame:` and still yields the placeholder. -/
theorem c7_amended (cfg : CameraConfig) (buf : CameraFrameBuffer) (p : String) (t : Nat)
    (now : String) (hp : p.isEmpty = false) :
    dictGet (broadcast_response cfg frame_buffer now) "image" = some JsonVal.null ∧
    dictGet (broadcast_response cfg frame_buffer now) "message" =
      some (JsonVal.s "Waiting for first frame...") ∧
    dictGet (broadcast_response cfg (set_frame buf cfg.camera_id p t).1 now) "image" =
      some (JsonVal.s p) ∧
    dictGet (broadcast_response cfg (set_frame buf cfg.camera_id "" t).1 now) "image" =
      some JsonVal.null := by
  refine ⟨?_, ?_, ?_, ?_⟩
  · simp [broadcast_response, get_frame_init, waiting_response, dictGet]
  · simp [broadcast_response, get_frame_init, waiting_response, dictGet]
  · simp [broadcast_response, get_frame_set_frame buf cfg.camera_id p t, hp, dictGet]
  · simp [broadcast_response, get_frame_set_frame buf cfg.camera_id "" t,
      waiting_response, dictGet]

/-- Witness for claim C7 at the Front View camera with the non-empty
payload "frameA". -/
theorem c7_amended_witness :
    dictGet (broadcast_response frontViewConfig frame_buffer "2026-01-01T00:00:00")
      "image" = some JsonVal.null ∧
    dictGet (broadcast_response frontViewConfig frame_buffer "2026-01-01T00:00:00")
      "message" = some (JsonVal.s "Waiting for first frame...") ∧
    dictGet (broadcast_response frontViewConfig
      (set_frame frame_buffer frontViewConfig.camera_id "frameA" 0).1
      "2026-01-01T00:00:00") "image" = some (JsonVal.s "frameA") ∧
    dictGet (broadcast_response frontViewConfig
      (set_frame frame_buffer frontViewConfig.camera_id "" 0).1
      "2026-01-01T00:00:00") "image" = some JsonVal.null :=
  c7_amended frontViewConfig frame_buffer "frameA" 0 "2026-01-01T00:00:00" (by decide)

/-- Claim C8, counterexample: both branches of `broadcast_camera_feed` put
an `is_grayscale` field into the outbound object, a field outside the
claimed shape; shown here on the placeholder message of the fresh buffer
and on a frame-carrying message. -/
theorem c8_counterexample :
    ((broadcast_response frontViewConfig frame_buffer "2026-01-01T00:00:00").map
      Prod.fst).contains "is_grayscale" = true ∧
    ((broadcast_response frontViewConfig
      (set_frame frame_buffer "front_view" "frameA" 0).1 "2026-01-01T00:00:00").map
      Prod.fst).contains "is_grayscale" = true ∧
    "is_grayscale" ∉
      ["camera_id", "camera_name", "timestamp", "image", "source_connected",
       "message"] := by
  decide

/-- Claim C8, amended: every message sent by the broadcast handler has
exactly the fields `camera_id`, `camera_name`, `timestamp`, `image`,
`is_grayscale`, `source_connected`, in source order, with a trailing
`message` field exactly when no truthy frame is stored. -/
theorem c8_amended (cfg : CameraConfig) (buf : CameraFrameBuffer) (now : String) :
    (broadcast_response cfg buf now).map Prod.fst =
      if pyTruthy (get_frame buf cfg.camera_id) then
        ["camera_id", "camera_name", "timestamp", "image", "is_grayscale",
         "source_connected"]
      else
        ["camera_id", "camera_name", "timestamp", "image", "is_grayscale",
         "source_connected", "message"] := by
  cases h : get_frame buf cfg.camera_id with
  | none => simp [broadcast_response, pyTruthy, h, waiting_response]
  | some v =>
    cases hv : v.isEmpty <;>
      simp [broadcast_response, pyTruthy, h, hv, waiting_response]

/-- Witness for the amended claim C8 at the Front View camera over the
fresh buffer. -/
theorem c8_amended_witness :
    (broadcast_response frontViewConfig frame_buffer "2026-01-01T00:00:00").map
      Prod.fst =
      if pyTruthy (get_frame frame_buffer frontViewConfig.camera_id) then
        ["camera_id", "camera_name", "timestamp", "image", "is_grayscale",
         "source_connected"]
      else
        ["camera_id", "camera_name", "timestamp", "image", "is_grayscale",
         "source_connected", "message"] :=
  c8_amended frontViewConfig frame_buffer "2026-01-01T00:00:00"

/-- Claim C9: a `set_frame` or `set_connection_status` call for camera `a`
leaves every component of the store — frame, timestamp, frame counter and
connection status — unchanged at any other camera `b`. -/
theorem c9_cross_camera_isolation (buf : CameraFrameBuffer) (a b : String)
    (hab : a ≠ b) (p : String) (t : Nat) (c : Bool) :
    dictGet (set_frame buf a p t).1.frames b = dictGet buf.frames b ∧
    dictGet (set_frame buf a p t).1.timestamps b = dictGet buf.timestamps b ∧
    dictGet (set_frame buf a p t).1.frame_counts b = dictGet buf.frame_counts b ∧
    dictGet (set_frame buf a p t).1.connection_status b =
      dictGet buf.connection_status b ∧
    dictGet (set_connection_status buf a c).frames b = dictGet buf.frames b ∧
    dictGet (set_connection_status buf a c).timestamps b = dictGet buf.timestamps b ∧
    dictGet (set_connection_status buf a c).frame_counts b =
      dictGet buf.frame_counts b ∧
    dictGet (set_connection_status buf a c).connection_status b =
      dictGet buf.connection_status b := by
  cases h : dictGet buf.frame_counts a <;>
    simp [set_frame, set_connection_status, h, dictGet_dictSet_ne hab]

/-- Witness for claim C9: a write to Front View leaves Rear View's slots
untouched. -/
theorem c9_cross_camera_isolation_witness :
    dictGet (set_frame frame_buffer "front_view" "frameA" 5).1.frames "rear_view" =
      dictGet frame_buffer.frames "rear_view" ∧
    dictGet (set_connection_status frame_buffer "front_view" true).connection_status
      "rear_view" = dictGet frame_buffer.connection_status "rear_view" :=
  ⟨(c9_cross_camera_isolation frame_buffer "front_view" "rear_view" (by decide)
      "frameA" 5 true).1,
   (c9_cross_camera_isolation frame_buffer "front_view" "rear_view" (by decide)
      "frameA" 5 true).2.2.2.2.2.2.2⟩

/-- Claim C10: for a camera id absent from the store, `get_frame` returns
the absent marker without raising, while `set_frame` raises `KeyError` from
the `frame_counts[camera_id] += 1` read — after the payload and timestamp
assignments have already mutated the store; the frame counter entry is
never created. -/
theorem c10_unconfigured_camera (buf : CameraFrameBuffer) (camera_id p : String)
    (t : Nat) (hc : dictGet buf.frame_counts camera_id = none)
    (hf : dictGet buf.frames camera_id = none) :
    get_frame buf camera_id = none ∧
    (set_frame buf camera_id p t).2 = some PyError.keyError ∧
    dictGet (set_frame buf camera_id p t).1.frames camera_id = some (some p) ∧
    dictGet (set_frame buf camera_id p t).1.timestamps camera_id = some (some t) ∧
    dictGet (set_frame buf camera_id p t).1.frame_counts camera_id = none := by
  refine ⟨?_, ?_, ?_, ?_, ?_⟩ <;>
    simp [get_frame, set_frame, hc, hf, dictGet_dictSet_self]

/-- Witness for claim C10 at the unconfigured id "ghost_camera" on the
fresh buffer. -/
theorem c10_unconfigured_camera_witness :
    get_frame frame_buffer "ghost_camera" = none ∧
    (set_frame frame_buffer "ghost_camera" "frameA" 3).2 = some PyError.keyError ∧
    dictGet (set_frame frame_buffer "ghost_camera" "frameA" 3).1.frames
      "ghost_camera" = some (some "frameA") ∧
    dictGet (set_frame frame_buffer "ghost_camera" "frameA" 3).1.frame_counts
      "ghost_camera" = none :=
  ⟨(c10_unconfigured_camera frame_buffer "ghost_camera" "frameA" 3 (by decide)
      (by decide)).1,
   (c10_unconfigured_camera frame_buffer "ghost_camera" "frameA" 3 (by decide)
      (by decide)).2.1,
   (c10_unconfigured_camera frame_buffer "ghost_camera" "frameA" 3 (by decide)
      (by decide)).2.2.1,
   (c10_unconfigured_camera frame_buffer "ghost_camera" "frameA" 3 (by decide)
      (by decide)).2.2.2.2⟩

end RoverUI
